import Mathlib

/-!
Verification development for the cash-register PDF data extractor
(`src/app.py`).  The core of the program is `extraer_datos_pdf`, which runs
seven Python `re.search` calls over the flattened text of a PDF, plus the
string normalizer `limpiar_valor_monetario`, the per-document wrapper
`procesar_pdf` and the batch loop of the UI.

Strings are embedded as `List Char`.  Python's `re.search` over the regex
fragment actually used (literals, `\s*`, `\s+`, `\d{n}`, `[AP]`, `\$?`,
`[\d,]+`, lazy `[\s\S]*?`, capture groups) is embedded as a complete
backtracking matcher that enumerates alternatives in exactly Python's
priority order: leftmost start position first; within one start position,
greedy pieces longest-first, lazy pieces shortest-first, `?` with the
character first.  `re.search` returns the captures of the first overall
match in that order.
-/

/-- Python `\s` on the ASCII range: space, tab, newline, carriage return,
vertical tab, form feed (inputs of this program are ASCII text dumps). -/
def esEspacio (c : Char) : Bool :=
  c == ' ' || c == '\t' || c == '\n' || c == '\r' || c == '\x0b' || c == '\x0c'

/-- Python `[\d,]` on the ASCII range. -/
def esDigitoComa (c : Char) : Bool :=
  c.isDigit || c == ','

/-- Character class `[AP]`. -/
def esAP (c : Char) : Bool :=
  c == 'A' || c == 'P'

/-- One atomic piece of a regex, covering exactly the constructs used by
`extraer_datos_pdf`'s seven patterns. -/
inductive Item where
  | lit : List Char → Item
  | cls : (Char → Bool) → Item
  | starG : (Char → Bool) → Item
  | plusG : (Char → Bool) → Item
  | optC : Char → Item
  | lazyAny : Item

/-- Length of the maximal prefix of `s` whose characters satisfy `p`. -/
def runLen (p : Char → Bool) : List Char → Nat
  | [] => 0
  | c :: t => if p c then runLen p t + 1 else 0

/-- Boolean prefix test on character lists. -/
def esPrefijo : List Char → List Char → Bool
  | [], _ => true
  | _ :: _, [] => false
  | c :: cs, d :: ds => c == d && esPrefijo cs ds

/-- All ways one item can consume a prefix of `s`, as the list of remaining
suffixes, in Python's backtracking priority order: greedy repetitions
longest-first, the lazy gap `[\s\S]*?` shortest-first, `\$?` with the
character first. -/
def alts : Item → List Char → List (List Char)
  | .lit cs, s => if esPrefijo cs s then [s.drop cs.length] else []
  | .cls p, s =>
      match s with
      | c :: r => if p c then [r] else []
      | [] => []
  | .starG p, s =>
      ((List.range (runLen p s + 1)).reverse).map (fun k => s.drop k)
  | .plusG p, s =>
      (((List.range (runLen p s + 1)).reverse).filter (fun k => k ≠ 0)).map
        (fun k => s.drop k)
  | .optC c, s =>
      match s with
      | c' :: r => if c' == c then [r, s] else [s]
      | [] => [s]
  | .lazyAny, s => (List.range (s.length + 1)).map (fun k => s.drop k)

/-- All ways a sequence of items can consume a prefix of `s`, as remaining
suffixes in backtracking priority order. -/
def seqMatches : List Item → List Char → List (List Char)
  | [], s => [s]
  | it :: rest, s => (alts it s).flatMap (fun r => seqMatches rest r)

/-- A segment of a pattern: a run of items outside any group, or a capture
group `( ... )`. -/
inductive Seg where
  | plain : List Item → Seg
  | cap : List Item → Seg

/-- All matches of a segment list against `s`, in backtracking priority
order; each result is the remaining suffix together with the list of
captured group texts in group order. -/
def segMatches : List Seg → List Char → List (List Char × List (List Char))
  | [], s => [(s, [])]
  | .plain its :: rest, s =>
      (seqMatches its s).flatMap (fun r => segMatches rest r)
  | .cap its :: rest, s =>
      (seqMatches its s).flatMap (fun r =>
        (segMatches rest r).map (fun pr =>
          (pr.1, s.take (s.length - r.length) :: pr.2)))

/-- Python `re.search`: scan start positions left to right and return the
captured groups of the first match found, `none` if the pattern matches
nowhere. -/
def research (segs : List Seg) : List Char → Option (List (List Char))
  | [] =>
    match (segMatches segs []).head? with
    | some pr => some pr.2
    | none => none
  | c :: t =>
    match (segMatches segs (c :: t)).head? with
    | some pr => some pr.2
    | none => research segs t

def txtAperturaMark : List Char := "A:".data
def txtCierreMark : List Char := "C:".data
def txtSlash : List Char := "/".data
def txtColon : List Char := ":".data
def txtM : List Char := "M".data
def txtFacturas : List Char := "DATOS DE FACTURAS".data
def txtVPunto : List Char := "V.".data
def txtBruta : List Char := "Bruta".data
def txtTotal : List Char := "Total".data
def txtMedio : List Char := "Medio".data
def txtEfectivo : List Char := "EFECTIVO".data
def txtDatafono : List Char := "DATAFONO".data
def txtValPunto : List Char := "Val.".data
def txtVentas : List Char := "Ventas".data
def txtEgresos : List Char := "DETALLE DE EGRESOS".data
def txtDiferencia : List Char := "Diferencia:".data
def txtCero : List Char := "0".data

/-- The captured date-time token
`\d{2}/\d{2}/\d{4}\s+\d{2}:\d{2}:\d{2}\s+[AP]M`. -/
def fechaHoraItems : List Item :=
  [.cls Char.isDigit, .cls Char.isDigit, .lit txtSlash,
   .cls Char.isDigit, .cls Char.isDigit, .lit txtSlash,
   .cls Char.isDigit, .cls Char.isDigit, .cls Char.isDigit, .cls Char.isDigit,
   .plusG esEspacio,
   .cls Char.isDigit, .cls Char.isDigit, .lit txtColon,
   .cls Char.isDigit, .cls Char.isDigit, .lit txtColon,
   .cls Char.isDigit, .cls Char.isDigit,
   .plusG esEspacio, .cls esAP, .lit txtM]

/-- Regex `A:\s*(\d{2}/\d{2}/\d{4}\s+\d{2}:\d{2}:\d{2}\s+[AP]M)`. -/
def patron_apertura : List Seg :=
  [.plain [.lit txtAperturaMark, .starG esEspacio], .cap fechaHoraItems]

/-- Regex `C:\s*(\d{2}/\d{2}/\d{4}\s+\d{2}:\d{2}:\d{2}\s+[AP]M)`. -/
def patron_cierre : List Seg :=
  [.plain [.lit txtCierreMark, .starG esEspacio], .cap fechaHoraItems]

/-- The captured numeral `[\d,]+`. -/
def numGroup : List Item := [.plusG esDigitoComa]

/-- Regex
`DATOS DE FACTURAS[\s\S]*?V\.\s*Bruta\s*:\s*\$?([\d,]+)[\s\S]*?Total\s*:\s*\$?([\d,]+)`. -/
def patron_seccion_facturas : List Seg :=
  [.plain [.lit txtFacturas, .lazyAny, .lit txtVPunto, .starG esEspacio,
           .lit txtBruta, .starG esEspacio, .lit txtColon, .starG esEspacio,
           .optC '$'],
   .cap numGroup,
   .plain [.lazyAny, .lit txtTotal, .starG esEspacio, .lit txtColon,
           .starG esEspacio, .optC '$'],
   .cap numGroup]

/-- Regex `Medio\s*:\s*EFECTIVO[\s\S]*?Val\.\s*Ventas\s*:\s*\$?([\d,]+)`. -/
def patron_efectivo : List Seg :=
  [.plain [.lit txtMedio, .starG esEspacio, .lit txtColon, .starG esEspacio,
           .lit txtEfectivo, .lazyAny, .lit txtValPunto, .starG esEspacio,
           .lit txtVentas, .starG esEspacio, .lit txtColon, .starG esEspacio,
           .optC '$'],
   .cap numGroup]

/-- Regex `Medio\s*:\s*DATAFONO[\s\S]*?Val\.\s*Ventas\s*:\s*\$?([\d,]+)`. -/
def patron_datafono : List Seg :=
  [.plain [.lit txtMedio, .starG esEspacio, .lit txtColon, .starG esEspacio,
           .lit txtDatafono, .lazyAny, .lit txtValPunto, .starG esEspacio,
           .lit txtVentas, .starG esEspacio, .lit txtColon, .starG esEspacio,
           .optC '$'],
   .cap numGroup]

/-- Regex `DETALLE DE EGRESOS[\s\S]*?Total\s*:\s*\$?([\d,]+)`. -/
def patron_egresos : List Seg :=
  [.plain [.lit txtEgresos, .lazyAny, .lit txtTotal, .starG esEspacio,
           .lit txtColon, .starG esEspacio, .optC '$'],
   .cap numGroup]

/-- Regex `Diferencia:\s*\$?([\d,]+)`. -/
def patron_diferencia : List Seg :=
  [.plain [.lit txtDiferencia, .starG esEspacio, .optC '$'], .cap numGroup]

/-- Python `str.strip()`: remove leading and trailing whitespace. -/
def pyStrip (s : List Char) : List Char :=
  ((s.dropWhile esEspacio).reverse.dropWhile esEspacio).reverse

/-- `limpiar_valor_monetario` from `src/app.py`: on a truthy (non-`None`,
non-empty) argument, `valor.replace('$', '').replace(',', '').strip()`;
otherwise the literal string `"0"`.  A `None` argument is `none` here. -/
def limpiar_valor_monetario (valor : Option (List Char)) : List Char :=
  match valor with
  | some v =>
      if v ≠ [] then pyStrip ((v.filter (fun c => c != '$')).filter (fun c => c != ','))
      else txtCero
  | none => txtCero

/-- Python `int(s)` on the strings reachable in this program: the cleaned
captures of `[\d,]+`, which are digit-only or empty.  A non-empty all-digit
string parses to its value; anything else (in particular the empty string)
raises `ValueError`, embedded as `none`. -/
def py_int (s : List Char) : Option Int :=
  if !s.isEmpty && s.all Char.isDigit then
    some (Int.ofNat (s.foldl (fun a c => a * 10 + (c.toNat - 48)) 0))
  else none

/-- The `datos` dictionary of `extraer_datos_pdf`: all eight fields, with
the defaults it is initialized with. -/
@[ext]
structure Datos where
  Apertura : List Char
  Cierre : List Char
  V_Bruta : Int
  Total : Int
  Efectivo : Int
  Datafono : Int
  Total_Egresos : Int
  Diferencia : Int
deriving DecidableEq

/-- The initial `datos` dictionary. -/
def datosIniciales : Datos :=
  { Apertura := [], Cierre := [], V_Bruta := 0, Total := 0, Efectivo := 0,
    Datafono := 0, Total_Egresos := 0, Diferencia := 0 }

/-- Step `if match_apertura: datos['Apertura'] = match_apertura.group(1)`. -/
def stepApertura (t : List Char) (d : Datos) : Datos :=
  match research patron_apertura t with
  | some (g :: _) => { d with Apertura := g }
  | _ => d

/-- Step `if match_cierre: datos['Cierre'] = match_cierre.group(1)`. -/
def stepCierre (t : List Char) (d : Datos) : Datos :=
  match research patron_cierre t with
  | some (g :: _) => { d with Cierre := g }
  | _ => d

/-- Combined V. Bruta / Total step: the two `int(...)` conversions run in
order; a `ValueError` (embedded as `none`) aborts the `try` block with the
assignments made so far, surfacing as `.error`. -/
def stepFacturas (t : List Char) (d : Datos) : Except Datos Datos :=
  match research patron_seccion_facturas t with
  | some (g1 :: g2 :: _) =>
      match py_int (limpiar_valor_monetario (some g1)) with
      | none => .error d
      | some v =>
          match py_int (limpiar_valor_monetario (some g2)) with
          | none => .error { d with V_Bruta := v }
          | some w => .ok { d with V_Bruta := v, Total := w }
  | _ => .ok d

/-- One single-capture monetary step
`if match: datos[f] = int(limpiar_valor_monetario(match.group(1)))`,
with a conversion failure aborting the `try` block. -/
def stepMoney (pat : List Seg) (upd : Datos → Int → Datos) (t : List Char)
    (d : Datos) : Except Datos Datos :=
  match research pat t with
  | some (g :: _) =>
      match py_int (limpiar_valor_monetario (some g)) with
      | none => .error d
      | some v => .ok (upd d v)
  | _ => .ok d

def updEfectivo (d : Datos) (v : Int) : Datos := { d with Efectivo := v }
def updDatafono (d : Datos) (v : Int) : Datos := { d with Datafono := v }
def updEgresos (d : Datos) (v : Int) : Datos := { d with Total_Egresos := v }
def updDiferencia (d : Datos) (v : Int) : Datos := { d with Diferencia := v }

/-- Python sequencing inside the `try` block: if the previous statement
raised, the rest is skipped and the exception keeps the dictionary state. -/
def seqE (a : Except Datos Datos) (f : Datos → Except Datos Datos) :
    Except Datos Datos :=
  match a with
  | .ok d => f d
  | .error d => .error d

/-- The four single-capture monetary steps, in source order: Efectivo,
Datafono, Total de Egresos, Diferencia. -/
def pasosMonetarios (t : List Char) (d : Datos) : Except Datos Datos :=
  seqE (seqE (seqE (stepMoney patron_efectivo updEfectivo t d)
      (stepMoney patron_datafono updDatafono t))
      (stepMoney patron_egresos updEgresos t))
      (stepMoney patron_diferencia updDiferencia t)

/-- End of the `try` block: the `except` handler calls `st.error` (the
surfaced error, embedded as the Boolean flag) and the function returns
`datos` in either case. -/
def finish (e : Except Datos Datos) : Datos × Bool :=
  match e with
  | .ok d => (d, false)
  | .error d => (d, true)

/-- `extraer_datos_pdf` from `src/app.py`: the eight pattern searches in
source order inside one `try` block; the returned Boolean is whether the
`except` branch ran (`st.error` was shown).  The function always returns
the `datos` record, exceptions included. -/
def extraer_datos_pdf (t : List Char) : Datos × Bool :=
  finish (seqE (stepFacturas t (stepCierre t (stepApertura t datosIniciales)))
    (pasosMonetarios t))

/-- `procesar_pdf` from `src/app.py`: obtain the document's text (the
external PDF-to-text collaborator, embedded as an `Option`: `none` is a
document whose text extraction raises) and run the field extractor; a
failed document yields `None`. -/
def procesar_pdf (doc : Option (List Char)) : Option Datos :=
  match doc with
  | some t => some (extraer_datos_pdf t).1
  | none => none

/-- The batch loop of `src/app.py` (lines 187-204): process the uploaded
files in order; a truthy result is appended to `resultados` tagged with the
file name (`datos['Archivo']`), a `None` result appends the name to
`errores`.  The loop's left-to-right appends are embedded as this structural
recursion, which builds the same two lists. -/
def batchProcess (files : List (String × Option (List Char))) :
    List (Datos × String) × List String :=
  match files with
  | [] => ([], [])
  | f :: rest =>
      let pr := batchProcess rest
      match procesar_pdf f.2 with
      | some d => ((d, f.1) :: pr.1, pr.2)
      | none => (pr.1, f.1 :: pr.2)

/-!
Per-field extraction functions.  Each is the value `extraer_datos_pdf`
assigns to one field, computed from that field's own pattern search alone;
the claims about field independence and defaults are stated through them.
-/

/-- Value of the `Apertura` field as a function of its own search only. -/
def campo_apertura (t : List Char) : List Char :=
  match research patron_apertura t with
  | some (g :: _) => g
  | _ => []

/-- Value of the `Cierre` field as a function of its own search only. -/
def campo_cierre (t : List Char) : List Char :=
  match research patron_cierre t with
  | some (g :: _) => g
  | _ => []

/-- Value a single-capture monetary pattern contributes: the converted
first capture of the first match, `0` if the pattern does not match. -/
def campoValor (pat : List Seg) (t : List Char) : Int :=
  match research pat t with
  | some (g :: _) => (py_int (limpiar_valor_monetario (some g))).getD 0
  | _ => 0

/-- Value of the `V_Bruta` field as a function of the combined invoices
pattern: group 1 of its first match. -/
def campo_v_bruta (t : List Char) : Int :=
  match research patron_seccion_facturas t with
  | some (g1 :: _ :: _) => (py_int (limpiar_valor_monetario (some g1))).getD 0
  | _ => 0

/-- Value of the `Total` field as a function of the combined invoices
pattern: group 2 of its first match. -/
def campo_total (t : List Char) : Int :=
  match research patron_seccion_facturas t with
  | some (_ :: g2 :: _) => (py_int (limpiar_valor_monetario (some g2))).getD 0
  | _ => 0

def campo_efectivo (t : List Char) : Int := campoValor patron_efectivo t
def campo_datafono (t : List Char) : Int := campoValor patron_datafono t
def campo_egresos (t : List Char) : Int := campoValor patron_egresos t
def campo_diferencia (t : List Char) : Int := campoValor patron_diferencia t

/-!
Infrastructure lemmas about the exception-propagating chain.
-/

@[simp]
theorem seqE_ok_app (d : Datos) (f : Datos → Except Datos Datos) :
    seqE (.ok d) f = f d := rfl

@[simp]
theorem seqE_error_app (d : Datos) (f : Datos → Except Datos Datos) :
    seqE (.error d) f = .error d := rfl

/-- Property holding of the dictionary state in both outcomes of a step. -/
def ExQ (Q : Datos → Prop) : Except Datos Datos → Prop
  | .ok d => Q d
  | .error d => Q d

@[simp]
theorem ExQ_ok (Q : Datos → Prop) (d : Datos) : ExQ Q (.ok d) = Q d := rfl

@[simp]
theorem ExQ_error (Q : Datos → Prop) (d : Datos) : ExQ Q (.error d) = Q d := rfl

theorem ExQ_seqE {Q : Datos → Prop} {a : Except Datos Datos}
    {f : Datos → Except Datos Datos} (ha : ExQ Q a)
    (hf : ∀ d, Q d → ExQ Q (f d)) : ExQ Q (seqE a f) := by
  cases a with
  | ok d => exact hf d ha
  | error d => exact ha

theorem finish_ExQ {Q : Datos → Prop} {e : Except Datos Datos}
    (h : ExQ Q e) : Q (finish e).1 := by
  cases e with
  | ok d => exact h
  | error d => exact h

/-- A single-capture monetary step either leaves the dictionary unchanged
(no match, or the conversion raised) or performs its one update. -/
theorem py_int_nonneg {s : List Char} {v : Int} (h : py_int s = some v) :
    0 ≤ v := by
  unfold py_int at h
  split_ifs at h with hc
  exact Option.some.inj h ▸ Int.ofNat_nonneg _

theorem stepMoney_cases (pat : List Seg) (upd : Datos → Int → Datos)
    (t : List Char) (d : Datos) :
    stepMoney pat upd t d = .ok d ∨ stepMoney pat upd t d = .error d ∨
    ∃ v, 0 ≤ v ∧ stepMoney pat upd t d = .ok (upd d v) := by
  unfold stepMoney
  rcases hr : research pat t with _ | (_ | ⟨g, gs⟩)
  · exact .inl rfl
  · exact .inl rfl
  · rcases hp : py_int (limpiar_valor_monetario (some g)) with _ | v
    · refine .inr (.inl ?_)
      simp [hp]
    · refine .inr (.inr ⟨v, py_int_nonneg hp, ?_⟩)
      simp [hp]

theorem ExQ_stepMoney {Q : Datos → Prop} (pat : List Seg)
    (upd : Datos → Int → Datos) (t : List Char) {d : Datos} (hd : Q d)
    (hupd : ∀ x v, 0 ≤ v → Q x → Q (upd x v)) :
    ExQ Q (stepMoney pat upd t d) := by
  rcases stepMoney_cases pat upd t d with h | h | ⟨v, hv, h⟩ <;> rw [h]
  · exact hd
  · exact hd
  · exact hupd d v hv hd

theorem ExQ_pasos {Q : Datos → Prop} (t : List Char) {d : Datos} (hd : Q d)
    (hE : ∀ x v, 0 ≤ v → Q x → Q (updEfectivo x v))
    (hD : ∀ x v, 0 ≤ v → Q x → Q (updDatafono x v))
    (hG : ∀ x v, 0 ≤ v → Q x → Q (updEgresos x v))
    (hF : ∀ x v, 0 ≤ v → Q x → Q (updDiferencia x v)) :
    ExQ Q (pasosMonetarios t d) := by
  unfold pasosMonetarios
  exact ExQ_seqE
    (ExQ_seqE
      (ExQ_seqE (ExQ_stepMoney _ _ _ hd hE) (fun x hx => ExQ_stepMoney _ _ _ hx hD))
      (fun x hx => ExQ_stepMoney _ _ _ hx hG))
    (fun x hx => ExQ_stepMoney _ _ _ hx hF)

/-- The first two (infallible) steps turn the initial dictionary into the
record of the two time fields. -/
theorem d2_eq (t : List Char) :
    stepCierre t (stepApertura t datosIniciales) =
      { Apertura := campo_apertura t, Cierre := campo_cierre t, V_Bruta := 0,
        Total := 0, Efectivo := 0, Datafono := 0, Total_Egresos := 0,
        Diferencia := 0 } := by
  unfold stepApertura stepCierre campo_apertura campo_cierre datosIniciales
  rcases hr : research patron_apertura t with _ | (_ | ⟨g, gs⟩) <;>
    rcases hc : research patron_cierre t with _ | (_ | ⟨g', gs'⟩) <;> rfl

/-- Equation form of `stepFacturas` when the combined pattern does not
match (or, unreachably, matches with fewer than two groups). -/
theorem stepFacturas_none {t : List Char} {d : Datos}
    (hr : research patron_seccion_facturas t = none) :
    stepFacturas t d = .ok d := by
  unfold stepFacturas
  rw [hr]

/-- Equation form of `stepFacturas` when both conversions succeed. -/
theorem stepFacturas_conv2 {t : List Char} {d : Datos} {g1 g2 : List Char}
    {gs : List (List Char)} {v w : Int}
    (hr : research patron_seccion_facturas t = some (g1 :: g2 :: gs))
    (h1 : py_int (limpiar_valor_monetario (some g1)) = some v)
    (h2 : py_int (limpiar_valor_monetario (some g2)) = some w) :
    stepFacturas t d = .ok { d with V_Bruta := v, Total := w } := by
  unfold stepFacturas
  rw [hr]
  simp [h1, h2]

/-- Equation form of `stepFacturas` when the first conversion raises. -/
theorem stepFacturas_err1 {t : List Char} {d : Datos} {g1 g2 : List Char}
    {gs : List (List Char)}
    (hr : research patron_seccion_facturas t = some (g1 :: g2 :: gs))
    (h1 : py_int (limpiar_valor_monetario (some g1)) = none) :
    stepFacturas t d = .error d := by
  unfold stepFacturas
  rw [hr]
  simp [h1]

/-- Equation form of `stepFacturas` when only the second conversion
raises: the `V_Bruta` assignment has already happened. -/
theorem stepFacturas_err2 {t : List Char} {d : Datos} {g1 g2 : List Char}
    {gs : List (List Char)} {v : Int}
    (hr : research patron_seccion_facturas t = some (g1 :: g2 :: gs))
    (h1 : py_int (limpiar_valor_monetario (some g1)) = some v)
    (h2 : py_int (limpiar_valor_monetario (some g2)) = none) :
    stepFacturas t d = .error { d with V_Bruta := v } := by
  unfold stepFacturas
  rw [hr]
  simp [h1, h2]

/-- A monetary step that returned `.ok` performed its single update with
the value of its own pattern (`upd d 0 = d` says the field was still at
its default, so the no-match case is the trivial update). -/
theorem stepMoney_ok_upd {pat : List Seg} {upd : Datos → Int → Datos}
    {t : List Char} {d d' : Datos} (hid : upd d 0 = d)
    (h : stepMoney pat upd t d = .ok d') : d' = upd d (campoValor pat t) := by
  unfold stepMoney at h
  unfold campoValor
  rcases hr : research pat t with _ | (_ | ⟨g, gs⟩) <;> rw [hr] at h <;>
    simp at h ⊢
  · rw [hid]
    exact h.symm
  · rw [hid]
    exact h.symm
  · rcases hp : py_int (limpiar_valor_monetario (some g)) with _ | v <;>
      rw [hp] at h <;> simp at h ⊢
    exact h.symm

/-- When the error flag is off, every step of the chain returned `.ok`. -/
theorem extraer_ok_decomp (t : List Char)
    (h : (extraer_datos_pdf t).2 = false) :
    ∃ d3 d4 d5 d6 d7,
      stepFacturas t (stepCierre t (stepApertura t datosIniciales)) = .ok d3 ∧
      stepMoney patron_efectivo updEfectivo t d3 = .ok d4 ∧
      stepMoney patron_datafono updDatafono t d4 = .ok d5 ∧
      stepMoney patron_egresos updEgresos t d5 = .ok d6 ∧
      stepMoney patron_diferencia updDiferencia t d6 = .ok d7 ∧
      (extraer_datos_pdf t).1 = d7 := by
  unfold extraer_datos_pdf at h ⊢
  unfold pasosMonetarios at h ⊢
  rcases hA : stepFacturas t (stepCierre t (stepApertura t datosIniciales))
      with dE | d3
  · rw [hA] at h
    simp [finish] at h
  · rw [hA] at h
    simp only [seqE_ok_app] at h ⊢
    rcases hB : stepMoney patron_efectivo updEfectivo t d3 with dE | d4
    · rw [hB] at h
      simp [finish] at h
    · rw [hB] at h
      simp only [seqE_ok_app] at h ⊢
      rcases hC : stepMoney patron_datafono updDatafono t d4 with dE | d5
      · rw [hC] at h
        simp [finish] at h
      · rw [hC] at h
        simp only [seqE_ok_app] at h ⊢
        rcases hD : stepMoney patron_egresos updEgresos t d5 with dE | d6
        · rw [hD] at h
          simp [finish] at h
        · rw [hD] at h
          simp only [seqE_ok_app] at h ⊢
          rcases hE : stepMoney patron_diferencia updDiferencia t d6
              with dE | d7
          · rw [hE] at h
            simp [finish] at h
          · exact ⟨d3, d4, d5, d6, d7, rfl, hB, hC, hD, hE, rfl⟩

/-- Outcome of `stepFacturas` when it returns `.ok`: the two coupled fields
take the values of the combined pattern's two groups (given they started at
their defaults), and every other field is untouched. -/
theorem stepFacturas_ok_fields {t : List Char} {d d' : Datos}
    (hv : d.V_Bruta = 0) (ht : d.Total = 0)
    (h : stepFacturas t d = .ok d') :
    d' = { d with V_Bruta := campo_v_bruta t, Total := campo_total t } := by
  unfold stepFacturas at h
  unfold campo_v_bruta campo_total
  rcases hr : research patron_seccion_facturas t
      with _ | (_ | ⟨g1, _ | ⟨g2, gs⟩⟩) <;> rw [hr] at h <;> simp at h ⊢
  · apply Datos.ext <;> simp [← h, hv, ht]
  · apply Datos.ext <;> simp [← h, hv, ht]
  · apply Datos.ext <;> simp [← h, hv, ht]
  · rcases hp1 : py_int (limpiar_valor_monetario (some g1)) with _ | v <;>
      rw [hp1] at h <;> simp at h ⊢
    rcases hp2 : py_int (limpiar_valor_monetario (some g2)) with _ | w <;>
      rw [hp2] at h <;> simp at h ⊢
    exact h.symm

theorem ExQ_stepFacturas {Q : Datos → Prop} (t : List Char) {d : Datos}
    (hd : Q d)
    (h1 : ∀ x v, 0 ≤ v → Q x → Q { x with V_Bruta := v })
    (h2 : ∀ x v w, 0 ≤ v → 0 ≤ w → Q x →
      Q { x with V_Bruta := v, Total := w }) :
    ExQ Q (stepFacturas t d) := by
  unfold stepFacturas
  rcases hr : research patron_seccion_facturas t
      with _ | (_ | ⟨g1, _ | ⟨g2, gs⟩⟩) <;> simp
  · exact hd
  · exact hd
  · exact hd
  · rcases hp1 : py_int (limpiar_valor_monetario (some g1)) with _ | v <;> simp
    · exact hd
    · rcases hp2 : py_int (limpiar_valor_monetario (some g2)) with _ | w <;> simp
      · exact h1 d v (py_int_nonneg hp1) hd
      · exact h2 d v w (py_int_nonneg hp1) (py_int_nonneg hp2) hd

/-- An invariant that the initial two time steps establish and that all
possible dictionary updates of the `try` block preserve holds of the record
`extraer_datos_pdf` returns, exceptions included. -/
theorem extraer_ExQ {Q : Datos → Prop} (t : List Char)
    (hd : Q (stepCierre t (stepApertura t datosIniciales)))
    (h1 : ∀ x v, 0 ≤ v → Q x → Q { x with V_Bruta := v })
    (h2 : ∀ x v w, 0 ≤ v → 0 ≤ w → Q x →
      Q { x with V_Bruta := v, Total := w })
    (hE : ∀ x v, 0 ≤ v → Q x → Q (updEfectivo x v))
    (hD : ∀ x v, 0 ≤ v → Q x → Q (updDatafono x v))
    (hG : ∀ x v, 0 ≤ v → Q x → Q (updEgresos x v))
    (hF : ∀ x v, 0 ≤ v → Q x → Q (updDiferencia x v)) :
    Q (extraer_datos_pdf t).1 := by
  unfold extraer_datos_pdf
  refine finish_ExQ (ExQ_seqE (ExQ_stepFacturas t hd h1 h2) ?_)
  intro x hx
  exact ExQ_pasos t hx hE hD hG hF

/-- When no exception is reported, the returned record is exactly the
eight per-field extraction functions applied to the text. -/
theorem extraer_ok_eq {t : List Char} (h : (extraer_datos_pdf t).2 = false) :
    (extraer_datos_pdf t).1 =
      { Apertura := campo_apertura t, Cierre := campo_cierre t,
        V_Bruta := campo_v_bruta t, Total := campo_total t,
        Efectivo := campo_efectivo t, Datafono := campo_datafono t,
        Total_Egresos := campo_egresos t, Diferencia := campo_diferencia t } := by
  obtain ⟨d3, d4, d5, d6, d7, h3, h4, h5, h6, h7, hres⟩ := extraer_ok_decomp t h
  rw [d2_eq] at h3
  have e3 := stepFacturas_ok_fields rfl rfl h3
  subst e3
  have e4 := stepMoney_ok_upd rfl h4
  subst e4
  have e5 := stepMoney_ok_upd rfl h5
  subst e5
  have e6 := stepMoney_ok_upd rfl h6
  subst e6
  have e7 := stepMoney_ok_upd rfl h7
  subst e7
  rw [hres]
  rfl

/-- The two time fields of the returned record are always the values of
their own searches, exceptions included. -/
theorem extraer_tiempos (t : List Char) :
    (extraer_datos_pdf t).1.Apertura = campo_apertura t ∧
    (extraer_datos_pdf t).1.Cierre = campo_cierre t := by
  refine extraer_ExQ (Q := fun x =>
    x.Apertura = campo_apertura t ∧ x.Cierre = campo_cierre t) t ?_ ?_ ?_ ?_ ?_ ?_ ?_
  · rw [d2_eq]
    exact ⟨rfl, rfl⟩
  · intro x v _ hx
    exact hx
  · intro x v w _ _ hx
    exact hx
  · intro x v _ hx
    exact hx
  · intro x v _ hx
    exact hx
  · intro x v _ hx
    exact hx
  · intro x v _ hx
    exact hx

/-!
Concrete documents used as witnesses and counterexamples.
-/

def ejemploFacturas : List Char :=
  "DATOS DE FACTURAS r1 V. Bruta : $1,234 r2 Total : $1,200 r3 Total : $999".data
def capBruta : List Char := "1,234".data
def capTotal : List Char := "1,200".data

def ejemploMedios1 : List Char :=
  "Medio : EFECTIVO Val. Ventas : $500 Medio : DATAFONO Val. Ventas : $300".data
def ejemploMedios2 : List Char :=
  "Medio : DATAFONO Val. Ventas : $300 Medio : EFECTIVO Val. Ventas : $500".data
def cap500 : List Char := "500".data
def cap300 : List Char := "300".data

def cexMedios : List Char :=
  "DATOS DE FACTURAS V. Bruta : $, Total : $2 Medio : EFECTIVO Val. Ventas : $500 Medio : DATAFONO Val. Ventas : $300".data

def cexDolar : List Char := "$".data
def ejJunk : List Char := "$ ,".data
def ejMoneda : List Char := "$1,234".data
def resMoneda : List Char := "1234".data

def ejDif : List Char := "Diferencia: $7".data

def ejExcepcion : List Char :=
  "A: 01/02/2024 10:00:00 AM DATOS DE FACTURAS V. Bruta : $7 Total : $,".data
def capSiete : List Char := "7".data
def capComa : List Char := ",".data
def fechaEj : List Char := "01/02/2024 10:00:00 AM".data

def ejSinTotal : List Char := "DATOS DE FACTURAS V. Bruta : $123 fin".data

def ejHora : List Char :=
  "HORA: 01/02/2024 10:20:30 AM SEC: 03/04/2024 01:02:03 PM A: 05/06/2024 11:22:33 AM C: 07/08/2024 12:13:14 PM".data
def fecha1 : List Char := "01/02/2024 10:20:30 AM".data
def fecha2 : List Char := "03/04/2024 01:02:03 PM".data

/-- C1: whenever the combined invoices pattern finds its first match — the
first "DATOS DE FACTURAS" header followed, shortest-span, by a "V. Bruta :"
numeral and then the first "Total :" numeral after it — and the two
captured numerals convert to integers, `extraer_datos_pdf` sets `V_Bruta`
and `Total` to exactly those two values, so no later unrelated "Total :"
occurrence is picked up (the witness instantiates this on the spec's
example with a trailing unrelated `Total : $999`). -/
theorem claim_C1 :
    ∀ (t g1 g2 : List Char) (gs : List (List Char)) (v1 v2 : Int),
      research patron_seccion_facturas t = some (g1 :: g2 :: gs) →
      py_int (limpiar_valor_monetario (some g1)) = some v1 →
      py_int (limpiar_valor_monetario (some g2)) = some v2 →
      (extraer_datos_pdf t).1.V_Bruta = v1 ∧
      (extraer_datos_pdf t).1.Total = v2 := by
  intro t g1 g2 gs v1 v2 hr h1 h2
  unfold extraer_datos_pdf
  rw [stepFacturas_conv2 hr h1 h2]
  simp only [seqE_ok_app]
  exact finish_ExQ (Q := fun x => x.V_Bruta = v1 ∧ x.Total = v2)
    (ExQ_pasos t ⟨rfl, rfl⟩ (fun x v _ hx => hx) (fun x v _ hx => hx)
      (fun x v _ hx => hx) (fun x v _ hx => hx))

/-- Witness for C1 at the spec's example: gross sales 1234 and total 1200
are taken from the header-scoped occurrence, not from the later 999. -/
theorem claim_C1_witness :
    research patron_seccion_facturas ejemploFacturas =
      some [capBruta, capTotal] ∧
    (extraer_datos_pdf ejemploFacturas).1.V_Bruta = 1234 ∧
    (extraer_datos_pdf ejemploFacturas).1.Total = 1200 :=
  ⟨by decide,
   (claim_C1 ejemploFacturas capBruta capTotal [] 1234 1200 (by decide)
     (by decide) (by decide)).1,
   (claim_C1 ejemploFacturas capBruta capTotal [] 1234 1200 (by decide)
     (by decide) (by decide)).2⟩

/-- Counterexample to C2 as stated: this text contains a
"Medio : EFECTIVO ... Val. Ventas : $500" section and a
"Medio : DATAFONO ... Val. Ventas : $300" section (both searches find
them), yet the extractor attributes neither value, because the malformed
"V. Bruta : $," numeral earlier in the document raises on integer
conversion and aborts the `try` block before the payment-method steps. -/
theorem claim_C2_counterexample :
    research patron_efectivo cexMedios = some [cap500] ∧
    research patron_datafono cexMedios = some [cap300] ∧
    (extraer_datos_pdf cexMedios).1.Efectivo = 0 ∧
    (extraer_datos_pdf cexMedios).1.Datafono = 0 ∧
    (extraer_datos_pdf cexMedios).2 = true := by
  decide

/-- C2 (amended): provided extraction reports no exception for the
document, each "Val. Ventas :" numeral is attributed to the field of its
own section label — `Efectivo` from the EFECTIVO search, `Datafono` from
the DATAFONO search — each a function of its own labelled search only, so
swapping the order of the two sections leaves both values unchanged (the
witness instantiates both orders). -/
theorem claim_C2 :
    ∀ (t g g' : List Char) (gs gs' : List (List Char)) (v v' : Int),
      (extraer_datos_pdf t).2 = false →
      research patron_efectivo t = some (g :: gs) →
      py_int (limpiar_valor_monetario (some g)) = some v →
      research patron_datafono t = some (g' :: gs') →
      py_int (limpiar_valor_monetario (some g')) = some v' →
      (extraer_datos_pdf t).1.Efectivo = v ∧
      (extraer_datos_pdf t).1.Datafono = v' := by
  intro t g g' gs gs' v v' hok h1 hp1 h2 hp2
  rw [extraer_ok_eq hok]
  constructor
  · show campo_efectivo t = v
    unfold campo_efectivo campoValor
    rw [h1]
    simp [hp1]
  · show campo_datafono t = v'
    unfold campo_datafono campoValor
    rw [h2]
    simp [hp2]

/-- Witness for C2 (amended) at both section orders: EFECTIVO $500 /
DATAFONO $300 is attributed identically in either order. -/
theorem claim_C2_witness :
    (extraer_datos_pdf ejemploMedios1).1.Efectivo = 500 ∧
    (extraer_datos_pdf ejemploMedios1).1.Datafono = 300 ∧
    (extraer_datos_pdf ejemploMedios2).1.Efectivo = 500 ∧
    (extraer_datos_pdf ejemploMedios2).1.Datafono = 300 :=
  ⟨(claim_C2 ejemploMedios1 cap500 cap300 [] [] 500 300 (by decide)
     (by decide) (by decide) (by decide) (by decide)).1,
   (claim_C2 ejemploMedios1 cap500 cap300 [] [] 500 300 (by decide)
     (by decide) (by decide) (by decide) (by decide)).2,
   (claim_C2 ejemploMedios2 cap500 cap300 [] [] 500 300 (by decide)
     (by decide) (by decide) (by decide) (by decide)).1,
   (claim_C2 ejemploMedios2 cap500 cap300 [] [] 500 300 (by decide)
     (by decide) (by decide) (by decide) (by decide)).2⟩

/-- A list made only of whitespace characters strips to the empty list. -/
theorem pyStrip_eq_nil {l : List Char} (h : ∀ c ∈ l, esEspacio c = true) :
    pyStrip l = [] := by
  unfold pyStrip
  have h1 : l.dropWhile esEspacio = [] := List.dropWhile_eq_nil_iff.mpr h
  rw [h1]
  rfl

/-- Counterexample to C3 as stated: the input `"$"` is non-empty but
cleans to the empty string, and the normalizer returns that empty string,
not the literal `"0"` the claim requires. -/
theorem claim_C3_counterexample :
    limpiar_valor_monetario (some cexDolar) = [] ∧
    limpiar_valor_monetario (some cexDolar) ≠ txtCero := by
  decide

/-- C3 (amended): the normalizer returns `"0"` exactly when its input is
absent (`None`) or the empty string; a non-empty input always yields the
cleaned string, which may itself be empty — in particular an input made
only of `'$'`, commas and whitespace yields the empty string, not `"0"`. -/
theorem claim_C3 :
    limpiar_valor_monetario none = txtCero ∧
    limpiar_valor_monetario (some []) = txtCero ∧
    (∀ s : List Char, s ≠ [] →
      (∀ c ∈ s, c = '$' ∨ c = ',' ∨ esEspacio c = true) →
      limpiar_valor_monetario (some s) = []) := by
  refine ⟨rfl, rfl, ?_⟩
  intro s hs hall
  show (if s ≠ [] then
      pyStrip ((s.filter (fun c => c != '$')).filter (fun c => c != ','))
    else txtCero) = []
  rw [if_pos hs]
  apply pyStrip_eq_nil
  intro c hc
  have hc2 := List.mem_filter.mp hc
  have hc1 := List.mem_filter.mp hc2.1
  rcases hall c hc1.1 with h | h | h
  · exact absurd hc1.2 (by simp [h])
  · exact absurd hc2.2 (by simp [h])
  · exact h

/-- Witness for C3 (amended) on the junk input `"$ ,"`. -/
theorem claim_C3_witness :
    ejJunk ≠ ([] : List Char) ∧
    limpiar_valor_monetario (some ejJunk) = [] :=
  ⟨by decide, claim_C3.2.2 ejJunk (by decide) (by decide)⟩

/-- Modelled from the spec's words (§4.1/§8): the characters of `s` with
every currency symbol `'$'` and every grouping comma removed, and
surrounding whitespace stripped, digits preserved in order. -/
def limpiezaEspec (s : List Char) : List Char :=
  pyStrip (s.filter (fun c => !(c == '$' || c == ',')))

/-- Removing `'$'` and then `','` is removing both at once. -/
theorem doble_filtro (s : List Char) :
    (s.filter (fun c => c != '$')).filter (fun c => c != ',') =
      s.filter (fun c => !(c == '$' || c == ',')) := by
  induction s with
  | nil => rfl
  | cons c cs ih =>
      by_cases hd : c = '$'
      · subst hd
        simp [List.filter_cons, ih]
      · by_cases hc : c = ','
        · subst hc
          simp [List.filter_cons, ih]
        · simp [List.filter_cons, ih, hd, hc]

/-- C4: on any currency string with a leading `'$'` and an internal comma
(hence non-empty, i.e. truthy), the normalizer returns exactly the
spec-side transform: the characters of the input with every `'$'` and
`','` removed and surrounding whitespace stripped, digits in order.  The
embedding is a total function, matching "pure and never raises". -/
theorem claim_C4 :
    ∀ s : List Char, s.head? = some '$' → ',' ∈ s →
      limpiar_valor_monetario (some s) = limpiezaEspec s := by
  intro s h1 _
  have hs : s ≠ [] := by
    intro h
    rw [h] at h1
    simp at h1
  show (if s ≠ [] then
      pyStrip ((s.filter (fun c => c != '$')).filter (fun c => c != ','))
    else txtCero) = limpiezaEspec s
  unfold limpiezaEspec
  rw [if_pos hs, doble_filtro]

/-- Witness for C4 on `"$1,234"`, which cleans to `"1234"`. -/
theorem claim_C4_witness :
    ejMoneda.head? = some '$' ∧ ',' ∈ ejMoneda ∧
    limpiar_valor_monetario (some ejMoneda) = limpiezaEspec ejMoneda ∧
    limpiezaEspec ejMoneda = resMoneda :=
  ⟨by decide, by decide, claim_C4 ejMoneda (by decide) (by decide), by decide⟩

/-- C5: field extraction is independent: when no exception is reported,
the returned record is exactly the eight per-field functions, each
computed from its own pattern's search of the whole text alone — so a
missing marker leaves that field at its documented default (empty string
for the time fields, 0 for the monetary fields) while every other field's
value, being a function of its own search only, is unaffected. -/
theorem claim_C5 :
    ∀ t : List Char, (extraer_datos_pdf t).2 = false →
      (extraer_datos_pdf t).1 =
        { Apertura := campo_apertura t, Cierre := campo_cierre t,
          V_Bruta := campo_v_bruta t, Total := campo_total t,
          Efectivo := campo_efectivo t, Datafono := campo_datafono t,
          Total_Egresos := campo_egresos t,
          Diferencia := campo_diferencia t } ∧
      (research patron_apertura t = none → campo_apertura t = []) ∧
      (research patron_cierre t = none → campo_cierre t = []) ∧
      (research patron_seccion_facturas t = none →
        campo_v_bruta t = 0 ∧ campo_total t = 0) ∧
      (research patron_efectivo t = none → campo_efectivo t = 0) ∧
      (research patron_datafono t = none → campo_datafono t = 0) ∧
      (research patron_egresos t = none → campo_egresos t = 0) ∧
      (research patron_diferencia t = none → campo_diferencia t = 0) := by
  intro t h
  refine ⟨extraer_ok_eq h, ?_, ?_, ?_, ?_, ?_, ?_, ?_⟩ <;> intro hr
  · unfold campo_apertura
    rw [hr]
  · unfold campo_cierre
    rw [hr]
  · unfold campo_v_bruta campo_total
    rw [hr]
    exact ⟨rfl, rfl⟩
  · unfold campo_efectivo campoValor
    rw [hr]
  · unfold campo_datafono campoValor
    rw [hr]
  · unfold campo_egresos campoValor
    rw [hr]
  · unfold campo_diferencia campoValor
    rw [hr]

/-- Witness for C5 on a text containing only a "Diferencia:" marker: no
exception, the one present field is filled, all others default. -/
theorem claim_C5_witness :
    (extraer_datos_pdf ejDif).2 = false ∧
    (extraer_datos_pdf ejDif).1 =
      { Apertura := [], Cierre := [], V_Bruta := 0, Total := 0,
        Efectivo := 0, Datafono := 0, Total_Egresos := 0, Diferencia := 7 } :=
  ⟨by decide, ((claim_C5 ejDif (by decide)).1).trans (by decide)⟩

/-- C6: for every input text the extractor returns a complete record —
the `Datos` structure always carries all eight fields, a missing match
being a default value rather than an absence or an error — and each of
the six monetary fields is non-negative, because every assigned value
comes from `int` applied to a digit string. -/
theorem claim_C6 :
    ∀ t : List Char,
      0 ≤ (extraer_datos_pdf t).1.V_Bruta ∧
      0 ≤ (extraer_datos_pdf t).1.Total ∧
      0 ≤ (extraer_datos_pdf t).1.Efectivo ∧
      0 ≤ (extraer_datos_pdf t).1.Datafono ∧
      0 ≤ (extraer_datos_pdf t).1.Total_Egresos ∧
      0 ≤ (extraer_datos_pdf t).1.Diferencia := by
  intro t
  refine extraer_ExQ (Q := fun x =>
    0 ≤ x.V_Bruta ∧ 0 ≤ x.Total ∧ 0 ≤ x.Efectivo ∧ 0 ≤ x.Datafono ∧
    0 ≤ x.Total_Egresos ∧ 0 ≤ x.Diferencia) t ?_ ?_ ?_ ?_ ?_ ?_ ?_
  · rw [d2_eq]
    exact ⟨le_refl 0, le_refl 0, le_refl 0, le_refl 0, le_refl 0, le_refl 0⟩
  · intro x v hv hx
    obtain ⟨_, h2, h3, h4, h5, h6⟩ := hx
    exact ⟨hv, h2, h3, h4, h5, h6⟩
  · intro x v w hv hw hx
    obtain ⟨_, _, h3, h4, h5, h6⟩ := hx
    exact ⟨hv, hw, h3, h4, h5, h6⟩
  · intro x v hv hx
    obtain ⟨h1, h2, _, h4, h5, h6⟩ := hx
    exact ⟨h1, h2, hv, h4, h5, h6⟩
  · intro x v hv hx
    obtain ⟨h1, h2, h3, _, h5, h6⟩ := hx
    exact ⟨h1, h2, h3, hv, h5, h6⟩
  · intro x v hv hx
    obtain ⟨h1, h2, h3, h4, _, h6⟩ := hx
    exact ⟨h1, h2, h3, h4, hv, h6⟩
  · intro x v hv hx
    obtain ⟨h1, h2, h3, h4, h5, _⟩ := hx
    exact ⟨h1, h2, h3, h4, h5, hv⟩

/-- C7: `extraer_datos_pdf` is total — an integer-conversion failure never
escapes it — and when a conversion does fail the error is surfaced (the
returned flag, the embedded `st.error` call, is `true`) while the record
is still returned, holding every field extracted before the exception and
the defaults for the rest: the first conjunct is a failure on the first
captured numeral (only the two time fields are kept), the second a failure
on the second numeral (the already-assigned `V_Bruta` is kept too). -/
theorem claim_C7 :
    ∀ (t g1 g2 : List Char) (gs : List (List Char)),
      research patron_seccion_facturas t = some (g1 :: g2 :: gs) →
      ((py_int (limpiar_valor_monetario (some g1)) = none →
          extraer_datos_pdf t =
            ({ Apertura := campo_apertura t, Cierre := campo_cierre t,
               V_Bruta := 0, Total := 0, Efectivo := 0, Datafono := 0,
               Total_Egresos := 0, Diferencia := 0 }, true)) ∧
       (∀ v1, py_int (limpiar_valor_monetario (some g1)) = some v1 →
          py_int (limpiar_valor_monetario (some g2)) = none →
          extraer_datos_pdf t =
            ({ Apertura := campo_apertura t, Cierre := campo_cierre t,
               V_Bruta := v1, Total := 0, Efectivo := 0, Datafono := 0,
               Total_Egresos := 0, Diferencia := 0 }, true))) := by
  intro t g1 g2 gs hr
  constructor
  · intro h1
    unfold extraer_datos_pdf
    rw [stepFacturas_err1 hr h1, d2_eq]
    rfl
  · intro v1 h1 h2
    unfold extraer_datos_pdf
    rw [stepFacturas_err2 hr h1 h2, d2_eq]
    rfl

/-- Witness for C7: a document whose second invoice numeral is the
malformed `"$,"`; the extractor reports the error, keeps the opening time
and the already-converted `V_Bruta = 7`, and defaults the rest. -/
theorem claim_C7_witness :
    research patron_seccion_facturas ejExcepcion = some [capSiete, capComa] ∧
    py_int (limpiar_valor_monetario (some capComa)) = none ∧
    extraer_datos_pdf ejExcepcion =
      ({ Apertura := fechaEj, Cierre := [], V_Bruta := 7, Total := 0,
         Efectivo := 0, Datafono := 0, Total_Egresos := 0,
         Diferencia := 0 }, true) :=
  ⟨by decide, by decide,
   (((claim_C7 ejExcepcion capSiete capComa [] (by decide)).2 7 (by decide)
     (by decide)).trans (by decide))⟩

/-- C8: the batch loop turns `N` uploaded documents into exactly one
record per document whose text extraction succeeds — tagged, in order,
with its source name — and one failure entry per document whose text
extraction fails, so `(N - M)` records plus `M` failure names; the loop is
a total function, so no per-document failure escapes it. -/
theorem claim_C8 :
    ∀ files : List (String × Option (List Char)),
      (batchProcess files).2 =
        (files.filter (fun f => f.2.isNone)).map (fun f => f.1) ∧
      (batchProcess files).1 =
        files.filterMap
          (fun f => f.2.map (fun tx => ((extraer_datos_pdf tx).1, f.1))) ∧
      (batchProcess files).1.length + (batchProcess files).2.length =
        files.length ∧
      (batchProcess files).1.map (fun r => r.2) =
        (files.filter (fun f => f.2.isSome)).map (fun f => f.1) := by
  intro files
  induction files with
  | nil => exact ⟨rfl, rfl, rfl, rfl⟩
  | cons f rest ih =>
      obtain ⟨ih1, ih2, ih3, ih4⟩ := ih
      rcases hf : f.2 with _ | tx
      · have hb : batchProcess (f :: rest) =
            ((batchProcess rest).1, f.1 :: (batchProcess rest).2) := by
          simp [batchProcess, procesar_pdf, hf]
        rw [hb]
        refine ⟨?_, ?_, ?_, ?_⟩
        · simp [List.filter_cons, hf, ih1]
        · simp [List.filterMap_cons, hf, ih2]
        · simp only [List.length_cons]
          omega
        · simp [List.filter_cons, hf, ih4]
      · have hb : batchProcess (f :: rest) =
            (((extraer_datos_pdf tx).1, f.1) :: (batchProcess rest).1,
              (batchProcess rest).2) := by
          simp [batchProcess, procesar_pdf, hf]
        rw [hb]
        refine ⟨?_, ?_, ?_, ?_⟩
        · simp [List.filter_cons, hf, ih1]
        · simp [List.filterMap_cons, hf, ih2]
        · simp only [List.length_cons]
          omega
        · simp [List.filter_cons, hf, ih4]

/-- C9: `V_Bruta` and `Total` are set together by the one combined pattern
or not at all: when that pattern has no match — in particular when the
"DATOS DE FACTURAS" header and a following "V. Bruta :" numeral are
present but no "Total :" numeral follows, as in the witness — both fields
stay at their default 0. -/
theorem claim_C9 :
    ∀ t : List Char,
      research patron_seccion_facturas t = none →
      (extraer_datos_pdf t).1.V_Bruta = 0 ∧
      (extraer_datos_pdf t).1.Total = 0 := by
  intro t hr
  unfold extraer_datos_pdf
  rw [stepFacturas_none hr]
  simp only [seqE_ok_app]
  refine finish_ExQ (Q := fun x => x.V_Bruta = 0 ∧ x.Total = 0)
    (ExQ_pasos t ?_ (fun x v _ hx => hx) (fun x v _ hx => hx)
      (fun x v _ hx => hx) (fun x v _ hx => hx))
  rw [d2_eq]
  exact ⟨rfl, rfl⟩

/-- Witness for C9 on a text with the header and a "V. Bruta : $123"
numeral but no following "Total :" numeral: the combined search fails and
both fields are 0. -/
theorem claim_C9_witness :
    research patron_seccion_facturas ejSinTotal = none ∧
    (extraer_datos_pdf ejSinTotal).1.V_Bruta = 0 ∧
    (extraer_datos_pdf ejSinTotal).1.Total = 0 :=
  ⟨by decide, (claim_C9 ejSinTotal (by decide)).1,
   (claim_C9 ejSinTotal (by decide)).2⟩

/-- C10: the time markers are matched as raw substrings by a scan of the
whole text: whatever first (leftmost) position lets `A:` — even as the
tail of a longer word such as `HORA:` — be followed by `\s*` and a
`dd/dd/dddd dd:dd:dd AM|PM` token determines `Apertura`, and symmetrically
for `C:` and `Cierre`; the witness text has the markers only inside
`HORA:` and `SEC:`, before later standalone `A:`/`C:` occurrences. -/
theorem claim_C10 :
    ∀ (t t' g g' : List Char) (gs gs' : List (List Char)),
      research patron_apertura t = some (g :: gs) →
      research patron_cierre t' = some (g' :: gs') →
      (extraer_datos_pdf t).1.Apertura = g ∧
      (extraer_datos_pdf t').1.Cierre = g' := by
  intro t t' g g' gs gs' h1 h2
  constructor
  · rw [(extraer_tiempos t).1]
    unfold campo_apertura
    rw [h1]
  · rw [(extraer_tiempos t').2]
    unfold campo_cierre
    rw [h2]

/-- Witness for C10: `A:` inside `HORA:` and `C:` inside `SEC:` are the
leftmost marker occurrences and provide the two times, although later
standalone `A:`/`C:` tokens exist. -/
theorem claim_C10_witness :
    research patron_apertura ejHora = some [fecha1] ∧
    research patron_cierre ejHora = some [fecha2] ∧
    (extraer_datos_pdf ejHora).1.Apertura = fecha1 ∧
    (extraer_datos_pdf ejHora).1.Cierre = fecha2 :=
  ⟨by decide, by decide,
   (claim_C10 ejHora ejHora fecha1 fecha2 [] [] (by decide) (by decide)).1,
   (claim_C10 ejHora ejHora fecha1 fecha2 [] [] (by decide) (by decide)).2⟩
